import Mathlib

/-!
Shallow embedding of the Blog frontend components
(`src/frontend/src/components/CreatePost.tsx`, `MyPosts.tsx`, `Home.tsx`).

Each event handler is translated as a pure function from the component's
state (plus the inputs the browser/server would supply: whether a user and
token are present, whether the user confirmed a dialog, what the server
responded) to the new component state together with the list of observable
effects the handler performs (network requests, alerts, navigations).
JS strings are `String`, JS numbers occurring as ids are `Nat`, the
like count returned by the server is `Int`, the JS `Set` of in-flight
post ids is a `Finset Nat`.
-/

namespace CreatePost

/-- Form state of the CreatePost component (`formData` in the source). -/
structure FormData where
  title : String
  content : String
deriving DecidableEq

/-- Component state of CreatePost: `formData`, `error`, `loading`. -/
structure State where
  formData : FormData
  error : Option String
  loading : Bool
deriving DecidableEq

/-- Observable effects of `CreatePost.handleSubmit`. -/
inductive Effect where
  /-- `axios.post('http://localhost:5000/api/posts', formData, …)` with a
  bearer credential in the Authorization header. -/
  | createPost (title content : String)
  /-- `navigate('/')` after a successful creation. -/
  | navigateHome
deriving DecidableEq

/-- Whether an effect is a network request. -/
def Effect.isRequest : Effect → Bool
  | .createPost _ _ => true
  | .navigateHome => false

/-- Possible results of the create request, as seen by the `catch` block:
either the request succeeds, or it fails with an optional server-supplied
message (`err.response?.data?.message`). -/
inductive Outcome where
  | ok
  | err (msg : Option String)

/-- Shallow embedding of `CreatePost.handleSubmit`
(`CreatePost.tsx` lines 34-75).  `hasUser`/`hasToken` say whether
`user`/`token` from the auth context are non-absent.  The handler first
sets `error := null` and `loading := true`; if user or token is absent it
sets the authentication-required error, resets `loading` and returns
without any network call; otherwise it posts the form, navigating home on
success and storing the server message (or a generic fallback) on
failure, resetting `loading` in the `finally` block. -/
def handleSubmit (hasUser hasToken : Bool) (o : Outcome) (s : State) :
    State × List Effect :=
  if ¬(hasUser = true ∧ hasToken = true) then
    ({ s with error := some "You must be logged in to create a post",
              loading := false }, [])
  else
    match o with
    | .ok =>
        ({ s with error := none, loading := false },
         [.createPost s.formData.title s.formData.content, .navigateHome])
    | .err msg =>
        ({ s with error := some (msg.getD "Failed to create post"),
                  loading := false },
         [.createPost s.formData.title s.formData.content])

end CreatePost

namespace MyPosts

/-- The post record used by the MyPosts view (`interface Post` in
`MyPosts.tsx`): id, title, content, created_at. -/
structure Post where
  id : Nat
  title : String
  content : String
  created_at : String
deriving DecidableEq

/-- The edit form state (`editForm` in the source). -/
structure EditForm where
  title : String
  content : String
deriving DecidableEq

/-- Component state of MyPosts: `posts`, `isLoading`, `error`,
`editingPost`, `editForm`. -/
structure State where
  posts : List Post
  isLoading : Bool
  error : String
  editingPost : Option Post
  editForm : EditForm
deriving DecidableEq

/-- Observable effects of the MyPosts handlers.  Each network request
records whether a bearer token was attached to its Authorization header
(the source always writes `Bearer ${token}` whether or not the context
token is absent). -/
inductive Effect where
  /-- `axios.get('http://localhost:5000/api/posts/user', …)`. -/
  | getUserPosts (hasToken : Bool)
  /-- `axios.put('http://localhost:5000/api/posts/' + id, editForm, …)`. -/
  | putPost (hasToken : Bool) (id : Nat) (title content : String)
  /-- `axios.delete('http://localhost:5000/api/posts/' + id, …)`. -/
  | deletePost (hasToken : Bool) (id : Nat)
  /-- `window.confirm('Are you sure you want to delete this post?')`. -/
  | confirmPrompt
deriving DecidableEq

/-- Whether an effect is a network request. -/
def Effect.isRequest : Effect → Bool
  | .getUserPosts _ => true
  | .putPost _ _ _ _ => true
  | .deletePost _ _ => true
  | .confirmPrompt => false

/-- The shape of `response.data` for the user-posts fetch: the source
accepts either a bare array or an object with an optional `posts` array
(`Array.isArray(response.data) ? response.data : response.data.posts || []`). -/
inductive FetchData where
  | arr (l : List Post)
  | obj (posts : Option (List Post))

/-- `Array.isArray(data) ? data : data.posts || []`. -/
def FetchData.normalize : FetchData → List Post
  | .arr l => l
  | .obj p => p.getD []

/-- Result of the user-posts fetch as seen by the `catch` block. -/
inductive FetchOutcome where
  | ok (data : FetchData)
  | failure

/-- Shallow embedding of `MyPosts.fetchPosts` (`MyPosts.tsx` lines 26-44):
one GET; on success the posts list is replaced by the normalized response
data; on failure a fixed error string is stored and the list is left
unchanged; `isLoading` is reset in the `finally` block. -/
def fetchPosts (hasToken : Bool) (o : FetchOutcome) (s : State) :
    State × List Effect :=
  match o with
  | .ok data =>
      ({ s with posts := data.normalize, isLoading := false },
       [.getUserPosts hasToken])
  | .failure =>
      ({ s with error := "Failed to load posts. Please try again later.",
                isLoading := false },
       [.getUserPosts hasToken])

/-- Result of the update request as seen by `handleEditSubmit`:
`ok p` is a truthy `response.data` holding the updated post; `okNoData`
is a falsy `response.data` (the handler then throws `'No data received
from server'`, caught locally with no `err.response`); `err msg` is a
request failure carrying the optional `err.response?.data?.message`. -/
inductive EditOutcome where
  | ok (post : Post)
  | okNoData
  | err (msg : Option String)

/-- Shallow embedding of `MyPosts.handleEditSubmit`
(`MyPosts.tsx` lines 51-88).  If no post is being edited it returns
immediately; otherwise it always issues exactly one PUT (there is no
user/token guard), on success replacing every post whose id equals the
edited post's id by the server's returned post and closing the edit
modal, and on failure storing the server message or the generic
fallback. -/
def handleEditSubmit (hasToken : Bool) (o : EditOutcome) (s : State) :
    State × List Effect :=
  match s.editingPost with
  | none => (s, [])
  | some ep =>
      match o with
      | .ok p =>
          ({ s with posts := s.posts.map fun post =>
                      if post.id = ep.id then p else post,
                    editingPost := none },
           [.putPost hasToken ep.id s.editForm.title s.editForm.content])
      | .okNoData =>
          ({ s with error := "Failed to update post" },
           [.putPost hasToken ep.id s.editForm.title s.editForm.content])
      | .err msg =>
          ({ s with error := msg.getD "Failed to update post" },
           [.putPost hasToken ep.id s.editForm.title s.editForm.content])

/-- Result of the delete request as seen by the `catch` block. -/
inductive DeleteOutcome where
  | ok
  | failure

/-- Shallow embedding of `MyPosts.handleDelete` (`MyPosts.tsx` lines
90-106).  `confirmed` is the value returned by `window.confirm`; when it
is false the handler returns with no request and no state change.
Otherwise one DELETE is issued; on success every post whose id equals
`postId` is filtered out of the local list, on failure a fixed error
string is stored and the list is unchanged. -/
def handleDelete (hasToken : Bool) (confirmed : Bool) (postId : Nat)
    (o : DeleteOutcome) (s : State) : State × List Effect :=
  if ¬(confirmed = true) then
    (s, [.confirmPrompt])
  else
    match o with
    | .ok =>
        ({ s with posts := s.posts.filter fun post => post.id != postId },
         [.confirmPrompt, .deletePost hasToken postId])
    | .failure =>
        ({ s with error := "Failed to delete post. Please try again." },
         [.confirmPrompt, .deletePost hasToken postId])

end MyPosts

namespace Home

/-- Author summary embedded in a post (`interface Post` in `Home.tsx`). -/
structure Author where
  username : String
  profile_picture : Option String
deriving DecidableEq

/-- The post record used by the Home view: id, title, content,
created_at, author, like_count, is_liked. -/
structure Post where
  id : Nat
  title : String
  content : String
  created_at : String
  author : Author
  like_count : Int
  is_liked : Bool
deriving DecidableEq

/-- The part of the Home component state touched by `handleLike`:
`posts` and the in-flight `likingPosts` set. -/
structure State where
  posts : List Post
  likingPosts : Finset Nat
deriving DecidableEq

/-- Observable effects of `Home.handleLike`. -/
inductive Effect where
  /-- `fetch('http://localhost:5000/api/posts/' + postId + '/like',
  \x7bmethod: 'POST', …\x7d)`. -/
  | likeRequest (postId : Nat)
  /-- `alert(msg)`. -/
  | alert (msg : String)
  /-- `console.error(…)`. -/
  | consoleError
deriving DecidableEq

/-- Whether an effect is a network request. -/
def Effect.isRequest : Effect → Bool
  | .likeRequest _ => true
  | .alert _ => false
  | .consoleError => false

/-- Result of the like request as seen by the handler: success carries
the server's returned `like_count` and `is_liked`; failure carries the
optional message of the thrown error. -/
inductive LikeOutcome where
  | success (like_count : Int) (is_liked : Bool)
  | failure (msg : Option String)

/-- Shallow embedding of `Home.handleLike` (`Home.tsx` lines 148-207).
If no user is present, an alert is shown and nothing else happens.  If
`postId` is already in the in-flight set, the handler returns at once.
Otherwise `postId` is added to the set; if the token is absent an alert
is shown and the `finally` block removes `postId` again; otherwise one
POST is issued, on success the matching post's `like_count`/`is_liked`
are replaced from the response, on failure the error is logged and
alerted, and in either case the `finally` block removes `postId` from
the set. -/
def handleLike (hasUser hasToken : Bool) (postId : Nat) (o : LikeOutcome)
    (s : State) : State × List Effect :=
  if ¬(hasUser = true) then
    (s, [.alert "Please log in to like posts"])
  else if postId ∈ s.likingPosts then
    (s, [])
  else
    let inflight := insert postId s.likingPosts
    if ¬(hasToken = true) then
      ({ s with likingPosts := inflight.erase postId },
       [.alert "Please log in to like posts"])
    else
      match o with
      | .success lc il =>
          ({ posts := s.posts.map fun post =>
               if post.id = postId then
                 { post with like_count := lc, is_liked := il }
               else post,
             likingPosts := inflight.erase postId },
           [.likeRequest postId])
      | .failure msg =>
          ({ s with likingPosts := inflight.erase postId },
           [.likeRequest postId, .consoleError,
            .alert (msg.getD "Failed to toggle like")])

/-- Shallow embedding of the content summary rendered for each post
(`Home.tsx` lines 270-272): `content.length > 150 ?
content.substring(0, 150) + '...' : content`, with the JS string viewed
as its list of characters. -/
def renderSummary (content : List Char) : List Char :=
  if content.length > 150 then content.take 150 ++ ['.', '.', '.']
  else content

/-- External share URLs built by `handleShare`, kept symbolic: each
constructor records the target site and the `encodeURIComponent`-escaped
query parameters the source interpolates into the URL string. -/
inductive BuiltUrl where
  /-- `https://twitter.com/intent/tweet?text=…&url=…`. -/
  | twitterIntent (text url : String)
  /-- `https://www.facebook.com/sharer/sharer.php?u=…`. -/
  | facebookSharer (url : String)
  /-- `https://www.linkedin.com/sharing/share-offsite/?url=…`. -/
  | linkedinShare (url : String)
  /-- `mailto:?subject=…&body=…`. -/
  | mailto (subject body : String)
deriving DecidableEq

/-- Observable effects of `Home.handleShare`.  `backendRequest` stands
for a fetch to this system's own backend; `handleShare` never emits it
(the source contains no such call), it is present so that absence of
backend traffic is expressible. -/
inductive ShareEffect where
  /-- `navigator.clipboard.writeText(postUrl)`. -/
  | clipboardWrite (url : String)
  /-- `window.open(url, '_blank')`. -/
  | openWindow (url : BuiltUrl)
  /-- `window.location.href = url` (mail client navigation). -/
  | setLocation (url : BuiltUrl)
  /-- `navigator.share(\x7btitle, text, url\x7d)`. -/
  | nativeShare (title text url : String)
  /-- `alert(msg)`. -/
  | alert (msg : String)
  /-- `console.log('Error sharing:', error)`. -/
  | consoleLog
  /-- A request to this system's own backend (never produced). -/
  | backendRequest
deriving DecidableEq

/-- The four share-effect constructors that deliver the share itself. -/
def ShareEffect.isPrimary : ShareEffect → Bool
  | .clipboardWrite _ => true
  | .openWindow _ => true
  | .setLocation _ => true
  | .nativeShare _ _ _ => true
  | _ => false

/-- Whether a share effect is an alert. -/
def ShareEffect.isAlert : ShareEffect → Bool
  | .alert _ => true
  | _ => false

/-- Whether a share effect is a request to this system's backend. -/
def ShareEffect.isBackend : ShareEffect → Bool
  | .backendRequest => true
  | _ => false

/-- Shallow embedding of `Home.handleShare` (`Home.tsx` lines 49-104).
Inputs beyond `(postId, type, post)`: `origin` is
`window.location.origin`; `nativeAvailable` is whether `navigator.share`
exists; `clipboardOk`/`nativeOk` are whether the clipboard write /
native share promise resolves; `dropdown` is the current `shareDropdown`
state, returned updated.  Each `case` of the source `switch` becomes one
branch. -/
def handleShare (postId : Nat) (ty : String) (post : Post)
    (origin : String) (nativeAvailable clipboardOk nativeOk : Bool)
    (dropdown : Option Nat) : List ShareEffect × Option Nat :=
  let postUrl := origin ++ "/post/" ++ toString postId
  let shareText := "Check out this post: \"" ++ post.title ++ "\" by "
      ++ post.author.username
  if ty = "copy" then
    if clipboardOk then
      ([.clipboardWrite postUrl, .alert "Link copied to clipboard!"], none)
    else
      ([.clipboardWrite postUrl, .alert "Failed to copy link"], dropdown)
  else if ty = "twitter" then
    ([.openWindow (.twitterIntent shareText postUrl)], none)
  else if ty = "facebook" then
    ([.openWindow (.facebookSharer postUrl)], none)
  else if ty = "linkedin" then
    ([.openWindow (.linkedinShare postUrl)], none)
  else if ty = "email" then
    ([.setLocation (.mailto post.title (shareText ++ "\n\n" ++ postUrl))],
     none)
  else if ty = "native" then
    if nativeAvailable then
      if nativeOk then
        ([.nativeShare post.title shareText postUrl], none)
      else
        ([.nativeShare post.title shareText postUrl, .consoleLog], dropdown)
    else
      ([], dropdown)
  else
    ([], dropdown)

end Home

/-!
General lemmas about the two list-update shapes the components use:
an id-keyed replace via `List.map` with a conditional, and an id-keyed
removal via `List.filter`.
-/

section ListHelpers


variable {α : Type}

theorem map_ite_key_spec (l : List α) (key : α → Nat) (pid : Nat) (f : α → α)
    (hnodup : (l.map key).Nodup) (i : Nat) (pi : α)
    (hi : l.get? i = some pi) (hkey : key pi = pid) :
    ((l.map fun x => if key x = pid then f x else x).length = l.length)
    ∧ ((l.map fun x => if key x = pid then f x else x).get? i = some (f pi))
    ∧ ∀ j, j ≠ i →
        (l.map fun x => if key x = pid then f x else x).get? j = l.get? j := by
  refine ⟨by simp, ?_, ?_⟩
  · rw [List.get?_map, hi]
    simp [hkey]
  · intro j hj
    rw [List.get?_map]
    cases hc : l.get? j with
    | none => simp
    | some pj =>
      have hjlt : j < l.length := by
        by_contra hge
        rw [List.get?_len_le (Nat.le_of_not_lt hge)] at hc
        cases hc
      have hne : ¬(key pj = pid) := by
        intro hEq
        apply hj
        apply List.get?_inj (by simpa using hjlt) hnodup
        rw [List.get?_map, List.get?_map, hi, hc]
        simp [hkey, hEq]
      simp [hne]

theorem filter_ne_key_decomp (key : α → Nat) (pid : Nat) :
    ∀ (l : List α), (l.map key).Nodup → pid ∈ l.map key →
      ∃ l1 p l2, l = l1 ++ p :: l2 ∧ key p = pid
        ∧ l.filter (fun x => key x != pid) = l1 ++ l2 := by
  intro l
  induction l with
  | nil => intro _ h; simp at h
  | cons a t ih =>
    intro hnodup hmem
    rw [List.map_cons, List.nodup_cons] at hnodup
    by_cases ha : key a = pid
    · refine ⟨[], a, t, rfl, ha, ?_⟩
      rw [List.filter_cons,
        if_neg (show ¬((key a != pid) = true) by simp [ha])]
      simp only [List.nil_append]
      rw [List.filter_eq_self]
      intro x hx
      have hxne : key x ≠ pid := by
        intro hEq
        exact hnodup.1 (by rw [ha, ← hEq]; exact List.mem_map_of_mem key hx)
      simp [hxne]
    · have hmem2 : pid ∈ t.map key := by
        rw [List.map_cons] at hmem
        cases List.mem_cons.mp hmem with
        | inl h => exact absurd h.symm ha
        | inr h => exact h
      obtain ⟨l1, p, l2, h1, h2, h3⟩ := ih hnodup.2 hmem2
      refine ⟨a :: l1, p, l2, by rw [h1, List.cons_append], h2, ?_⟩
      rw [List.filter_cons,
        if_pos (show (key a != pid) = true by simp [ha]), h3]
      simp

end ListHelpers

/-!
Concrete sample values used by the witness and counterexample theorems.
-/

/-- A sample Home post with id 1. -/
def p1 : Home.Post :=
  { id := 1, title := "A", content := "hello", created_at := "2024-01-01",
    author := { username := "alice", profile_picture := none },
    like_count := 0, is_liked := false }

/-- A sample Home post with id 2. -/
def p2 : Home.Post :=
  { id := 2, title := "B", content := "world", created_at := "2024-01-02",
    author := { username := "bob", profile_picture := none },
    like_count := 3, is_liked := true }

/-- A sample Home state holding `p1` and `p2` with no toggle in flight. -/
def homeStateIdle : Home.State := { posts := [p1, p2], likingPosts := ∅ }

/-- A sample Home state holding `p1` and `p2` with a toggle for post 1
already in flight. -/
def homeStateBusy : Home.State := { posts := [p1, p2], likingPosts := {1} }

/-- A sample MyPosts post with id 5. -/
def mp5 : MyPosts.Post :=
  { id := 5, title := "A", content := "C0", created_at := "2024-01-01" }

/-- A sample MyPosts post with id 6. -/
def mp6 : MyPosts.Post :=
  { id := 6, title := "T6", content := "C6", created_at := "2024-01-02" }

/-- The server's returned representation after editing post 5. -/
def mp5upd : MyPosts.Post :=
  { id := 5, title := "B", content := "C", created_at := "2024-01-01" }

/-- A sample MyPosts state editing post 5 with form `{title: "B",
content: "C"}`. -/
def myStateEditing : MyPosts.State :=
  { posts := [mp5, mp6], isLoading := false, error := "",
    editingPost := some mp5, editForm := { title := "B", content := "C" } }

/-- A 200-character content sample. -/
def longContent : List Char := List.replicate 200 'x'

/-- Claim C6: for every post content, the rendered summary shows the full
content when its length is at most 150 characters, and otherwise shows
exactly the first 150 characters of the content followed by an
ellipsis. -/
theorem claim6_summary_truncation (content : List Char) :
    (content.length ≤ 150 → Home.renderSummary content = content)
    ∧ (150 < content.length →
        Home.renderSummary content = content.take 150 ++ ['.', '.', '.']
        ∧ (content.take 150).length = 150
        ∧ content.take 150 ++ content.drop 150 = content) := by
  constructor
  · intro h
    rw [Home.renderSummary, if_neg (by omega)]
  · intro h
    refine ⟨?_, ?_, List.take_append_drop 150 content⟩
    · rw [Home.renderSummary, if_pos (by omega)]
    · rw [List.length_take]
      omega

/-- Witness for C6: a 200-character content is truncated to its first 150
characters plus an ellipsis. -/
theorem claim6_summary_truncation_witness :
    Home.renderSummary longContent = longContent.take 150 ++ ['.', '.', '.']
    ∧ (longContent.take 150).length = 150 :=
  ⟨((claim6_summary_truncation longContent).2
      (by rw [longContent, List.length_replicate]; omega)).1,
   ((claim6_summary_truncation longContent).2
      (by rw [longContent, List.length_replicate]; omega)).2.1⟩

/-- Claim C2: invoking the like toggle for a post id that is already in
the in-flight set issues no network request and leaves the component
state unchanged, whatever the user/token situation and whatever the
server would have answered. -/
theorem claim2_like_inflight_noop (hasUser hasToken : Bool) (postId : Nat)
    (o : Home.LikeOutcome) (s : Home.State)
    (h : postId ∈ s.likingPosts) :
    (Home.handleLike hasUser hasToken postId o s).1 = s
    ∧ (Home.handleLike hasUser hasToken postId o s).2.countP
        Home.Effect.isRequest = 0 := by
  cases hasUser with
  | false =>
      simp [Home.handleLike, List.countP_cons, List.countP_nil,
        Home.Effect.isRequest]
  | true =>
      simp [Home.handleLike, h]

/-- Witness for C2: with a toggle for post 1 in flight, toggling post 1
again changes nothing and issues no request. -/
theorem claim2_like_inflight_noop_witness :
    (Home.handleLike true true 1 (Home.LikeOutcome.success 7 true)
        homeStateBusy).1 = homeStateBusy
    ∧ (Home.handleLike true true 1 (Home.LikeOutcome.success 7 true)
        homeStateBusy).2.countP Home.Effect.isRequest = 0 :=
  claim2_like_inflight_noop true true 1 (Home.LikeOutcome.success 7 true)
    homeStateBusy (by decide)

/-- Claim C10: every like-toggle call that passes the duplicate guard
(user present, post id not already in flight) restores the in-flight set
to its previous value in every outcome — success, request failure, or
the missing-token early return — so the guard never permanently blocks
future toggles of that post. -/
theorem claim10_like_inflight_released (hasToken : Bool) (postId : Nat)
    (o : Home.LikeOutcome) (s : Home.State)
    (h : postId ∉ s.likingPosts) :
    ((Home.handleLike true hasToken postId o s).1).likingPosts
      = s.likingPosts := by
  cases hasToken with
  | false => simp [Home.handleLike, h, Finset.erase_insert h]
  | true =>
      cases o with
      | success lc il => simp [Home.handleLike, h, Finset.erase_insert h]
      | failure m => simp [Home.handleLike, h, Finset.erase_insert h]

/-- Witness for C10: a missing-token call on an idle state leaves the
in-flight set empty. -/
theorem claim10_like_inflight_released_witness :
    ((Home.handleLike true false 1 (Home.LikeOutcome.failure none)
        homeStateIdle).1).likingPosts = homeStateIdle.likingPosts :=
  claim10_like_inflight_released false 1 (Home.LikeOutcome.failure none)
    homeStateIdle (by decide)

/-- Claim C3: a successful like toggle on post id `postId` replaces
exactly the entry carrying that id (ids assumed unique) with its
`like_count`/`is_liked` fields set to the server's returned values, and
leaves every other entry and the length/order of the list unchanged. -/
theorem claim3_like_success_frame (postId : Nat) (lc : Int) (il : Bool)
    (s : Home.State) (hfl : postId ∉ s.likingPosts)
    (hnodup : (s.posts.map Home.Post.id).Nodup)
    (i : Nat) (pi : Home.Post)
    (hi : s.posts.get? i = some pi) (hkey : pi.id = postId) :
    ((Home.handleLike true true postId (Home.LikeOutcome.success lc il)
        s).1).posts.length = s.posts.length
    ∧ ((Home.handleLike true true postId (Home.LikeOutcome.success lc il)
        s).1).posts.get? i
        = some { pi with like_count := lc, is_liked := il }
    ∧ ∀ j, j ≠ i →
        ((Home.handleLike true true postId (Home.LikeOutcome.success lc il)
            s).1).posts.get? j = s.posts.get? j := by
  have hposts : ((Home.handleLike true true postId
      (Home.LikeOutcome.success lc il) s).1).posts
      = s.posts.map fun post =>
          if post.id = postId then
            { post with like_count := lc, is_liked := il }
          else post := by
    simp [Home.handleLike, hfl]
  simp only [hposts]
  exact map_ite_key_spec s.posts Home.Post.id postId
    (fun post => { post with like_count := lc, is_liked := il })
    hnodup i pi hi hkey

/-- Witness for C3: toggling post 2 in the idle sample state updates the
entry at index 1 and leaves index 0 untouched. -/
theorem claim3_like_success_frame_witness :
    ((Home.handleLike true true 2 (Home.LikeOutcome.success 4 false)
        homeStateIdle).1).posts.length = homeStateIdle.posts.length
    ∧ ((Home.handleLike true true 2 (Home.LikeOutcome.success 4 false)
        homeStateIdle).1).posts.get? 1
        = some { p2 with like_count := 4, is_liked := false }
    ∧ ((Home.handleLike true true 2 (Home.LikeOutcome.success 4 false)
        homeStateIdle).1).posts.get? 0 = homeStateIdle.posts.get? 0 :=
  ⟨(claim3_like_success_frame 2 4 false homeStateIdle (by decide)
      (by decide) 1 p2 rfl rfl).1,
   (claim3_like_success_frame 2 4 false homeStateIdle (by decide)
      (by decide) 1 p2 rfl rfl).2.1,
   (claim3_like_success_frame 2 4 false homeStateIdle (by decide)
      (by decide) 1 p2 rfl rfl).2.2 0 (by decide)⟩

/-- Claim C4: a delete attempt that is not confirmed issues no network
call and leaves the state unchanged; a confirmed delete issues exactly
one DELETE request, and on success removes exactly the post with the
given id (ids assumed unique) from the local list, preserving every
other entry and their order. -/
theorem claim4_delete_confirmation (hasToken confirmed : Bool)
    (postId : Nat) (o : MyPosts.DeleteOutcome) (s : MyPosts.State) :
    (confirmed = false →
        MyPosts.handleDelete hasToken confirmed postId o s
          = (s, [MyPosts.Effect.confirmPrompt]))
    ∧ (confirmed = true →
        (MyPosts.handleDelete hasToken confirmed postId o s).2
          = [MyPosts.Effect.confirmPrompt,
             MyPosts.Effect.deletePost hasToken postId])
    ∧ (confirmed = true → o = MyPosts.DeleteOutcome.ok →
        (s.posts.map MyPosts.Post.id).Nodup →
        postId ∈ s.posts.map MyPosts.Post.id →
        ∃ l1 p l2, s.posts = l1 ++ p :: l2 ∧ p.id = postId
          ∧ (MyPosts.handleDelete hasToken confirmed postId o s).1.posts
              = l1 ++ l2
          ∧ (MyPosts.handleDelete hasToken confirmed postId o
              s).1.posts.length + 1 = s.posts.length) := by
  refine ⟨?_, ?_, ?_⟩
  · intro hc
    subst hc
    simp [MyPosts.handleDelete]
  · intro hc
    subst hc
    cases o <;> simp [MyPosts.handleDelete]
  · intro hc ho hnodup hmem
    subst hc
    subst ho
    have hposts : (MyPosts.handleDelete hasToken true postId
        MyPosts.DeleteOutcome.ok s).1.posts
        = s.posts.filter fun post => post.id != postId := by
      simp [MyPosts.handleDelete]
    obtain ⟨l1, p, l2, h1, h2, h3⟩ :=
      filter_ne_key_decomp MyPosts.Post.id postId s.posts hnodup hmem
    refine ⟨l1, p, l2, h1, h2, by rw [hposts]; exact h3, ?_⟩
    rw [hposts, h3, h1]
    simp [List.length_append]
    omega

/-- Witness for C4: confirming the deletion of post 5 in the sample state
issues one DELETE and shrinks the two-post list to one entry. -/
theorem claim4_delete_confirmation_witness :
    (MyPosts.handleDelete true true 5 MyPosts.DeleteOutcome.ok
        myStateEditing).2
      = [MyPosts.Effect.confirmPrompt, MyPosts.Effect.deletePost true 5]
    ∧ (MyPosts.handleDelete true true 5 MyPosts.DeleteOutcome.ok
        myStateEditing).1.posts.length + 1
        = myStateEditing.posts.length := by
  refine ⟨(claim4_delete_confirmation true true 5
      MyPosts.DeleteOutcome.ok myStateEditing).2.1 rfl, ?_⟩
  obtain ⟨l1, p, l2, h1, h2, h3, h4⟩ :=
    (claim4_delete_confirmation true true 5 MyPosts.DeleteOutcome.ok
      myStateEditing).2.2 rfl rfl (by decide) (by decide)
  exact h4

/-- Claim C5: a successful edit submission of the post being edited
issues exactly one update request and replaces the post with that id
(ids assumed unique) in place by the server's returned representation,
preserving its position, leaving every other entry unchanged, and
closing the edit modal. -/
theorem claim5_edit_success_replace (hasToken : Bool) (s : MyPosts.State)
    (ep newPost : MyPosts.Post) (hep : s.editingPost = some ep)
    (hnodup : (s.posts.map MyPosts.Post.id).Nodup)
    (i : Nat) (pi : MyPosts.Post)
    (hi : s.posts.get? i = some pi) (hkey : pi.id = ep.id) :
    (MyPosts.handleEditSubmit hasToken (MyPosts.EditOutcome.ok newPost)
        s).2
      = [MyPosts.Effect.putPost hasToken ep.id s.editForm.title
          s.editForm.content]
    ∧ (MyPosts.handleEditSubmit hasToken (MyPosts.EditOutcome.ok newPost)
        s).2.countP MyPosts.Effect.isRequest = 1
    ∧ (MyPosts.handleEditSubmit hasToken (MyPosts.EditOutcome.ok newPost)
        s).1.posts.length = s.posts.length
    ∧ (MyPosts.handleEditSubmit hasToken (MyPosts.EditOutcome.ok newPost)
        s).1.posts.get? i = some newPost
    ∧ (∀ j, j ≠ i →
        (MyPosts.handleEditSubmit hasToken
            (MyPosts.EditOutcome.ok newPost) s).1.posts.get? j
          = s.posts.get? j)
    ∧ (MyPosts.handleEditSubmit hasToken (MyPosts.EditOutcome.ok newPost)
        s).1.editingPost = none := by
  have hr2 : (MyPosts.handleEditSubmit hasToken
      (MyPosts.EditOutcome.ok newPost) s).2
      = [MyPosts.Effect.putPost hasToken ep.id s.editForm.title
          s.editForm.content] := by
    simp [MyPosts.handleEditSubmit, hep]
  have hrposts : (MyPosts.handleEditSubmit hasToken
      (MyPosts.EditOutcome.ok newPost) s).1.posts
      = s.posts.map fun post =>
          if post.id = ep.id then newPost else post := by
    simp [MyPosts.handleEditSubmit, hep]
  have hredit : (MyPosts.handleEditSubmit hasToken
      (MyPosts.EditOutcome.ok newPost) s).1.editingPost = none := by
    simp [MyPosts.handleEditSubmit, hep]
  obtain ⟨h1, h2, h3⟩ := map_ite_key_spec s.posts MyPosts.Post.id ep.id
    (fun _ => newPost) hnodup i pi hi hkey
  simp only [hr2, hrposts, hredit]
  exact ⟨trivial,
    by simp [List.countP_cons, List.countP_nil, MyPosts.Effect.isRequest],
    h1, h2, h3, trivial⟩

/-- Witness for C5: editing post 5 in the sample state issues one PUT and
replaces the entry at index 0 by the server's post, leaving index 1
untouched. -/
theorem claim5_edit_success_replace_witness :
    (MyPosts.handleEditSubmit true (MyPosts.EditOutcome.ok mp5upd)
        myStateEditing).2
      = [MyPosts.Effect.putPost true 5 "B" "C"]
    ∧ (MyPosts.handleEditSubmit true (MyPosts.EditOutcome.ok mp5upd)
        myStateEditing).1.posts.get? 0 = some mp5upd
    ∧ (MyPosts.handleEditSubmit true (MyPosts.EditOutcome.ok mp5upd)
        myStateEditing).1.posts.get? 1 = myStateEditing.posts.get? 1 :=
  ⟨(claim5_edit_success_replace true myStateEditing mp5 mp5upd rfl
      (by decide) 0 mp5 rfl rfl).1,
   (claim5_edit_success_replace true myStateEditing mp5 mp5upd rfl
      (by decide) 0 mp5 rfl rfl).2.2.2.1,
   (claim5_edit_success_replace true myStateEditing mp5 mp5upd rfl
      (by decide) 0 mp5 rfl rfl).2.2.2.2.1 1 (by decide)⟩

/-- Counterexample for C1 as stated: submitting the edit form while the
token is absent still issues the update network request (with an empty
credential) instead of failing with the authentication-required error —
the edit handler has no identity/credential guard. -/
theorem claim1_auth_guard_counterexample :
    (MyPosts.handleEditSubmit false (MyPosts.EditOutcome.ok mp5upd)
        myStateEditing).2
      = [MyPosts.Effect.putPost false 5 "B" "C"]
    ∧ (MyPosts.handleEditSubmit false (MyPosts.EditOutcome.ok mp5upd)
        myStateEditing).2.countP MyPosts.Effect.isRequest = 1 := by
  refine ⟨rfl, ?_⟩
  simp [MyPosts.handleEditSubmit, myStateEditing, List.countP_cons,
    List.countP_nil, MyPosts.Effect.isRequest]

/-- Claim C1 (amended): create-mode submissions with an absent identity
or credential fail immediately with the authentication-required error
and perform no network call; edit-mode submissions have no such guard
and issue the update request even when the token is absent. -/
theorem claim1_auth_guard_amended (hasUser hasToken : Bool)
    (o : CreatePost.Outcome) (s : CreatePost.State)
    (hu : ¬(hasUser = true ∧ hasToken = true))
    (ms : MyPosts.State) (ep : MyPosts.Post) (mo : MyPosts.EditOutcome)
    (hep : ms.editingPost = some ep) :
    (CreatePost.handleSubmit hasUser hasToken o s).2 = []
    ∧ (CreatePost.handleSubmit hasUser hasToken o s).1.error
        = some "You must be logged in to create a post"
    ∧ (MyPosts.handleEditSubmit false mo ms).2.countP
        MyPosts.Effect.isRequest = 1 := by
  refine ⟨?_, ?_, ?_⟩
  · rw [CreatePost.handleSubmit.eq_def, if_pos hu]
  · rw [CreatePost.handleSubmit.eq_def, if_pos hu]
  · cases mo <;>
      simp [MyPosts.handleEditSubmit, hep, List.countP_cons,
        List.countP_nil, MyPosts.Effect.isRequest]

/-- Witness for the amended C1: with no user and no token, a create
submission performs no network call and shows the authentication error,
while an edit submission still issues its one PUT. -/
theorem claim1_auth_guard_amended_witness :
    (CreatePost.handleSubmit false false CreatePost.Outcome.ok
        { formData := { title := "T", content := "C" }, error := none,
          loading := true }).2 = []
    ∧ (CreatePost.handleSubmit false false CreatePost.Outcome.ok
        { formData := { title := "T", content := "C" }, error := none,
          loading := true }).1.error
        = some "You must be logged in to create a post"
    ∧ (MyPosts.handleEditSubmit false
        (MyPosts.EditOutcome.ok mp5upd) myStateEditing).2.countP
        MyPosts.Effect.isRequest = 1 :=
  claim1_auth_guard_amended false false CreatePost.Outcome.ok
    { formData := { title := "T", content := "C" }, error := none,
      loading := true }
    (by decide) myStateEditing mp5
    (MyPosts.EditOutcome.ok mp5upd) rfl

/-- Counterexample for C7 as stated: a failed update does not show a
single generic error string — it shows the server-supplied message when
one is present, so two failures of the same operation surface two
different strings. -/
theorem claim7_generic_error_counterexample :
    (MyPosts.handleEditSubmit true
        (MyPosts.EditOutcome.err (some "Unauthorized"))
        myStateEditing).1.error = "Unauthorized"
    ∧ (MyPosts.handleEditSubmit true (MyPosts.EditOutcome.err none)
        myStateEditing).1.error = "Failed to update post"
    ∧ "Unauthorized" ≠ "Failed to update post" :=
  ⟨rfl, rfl, by decide⟩

/-- Claim C7 (amended): a failed listMine or delete surfaces one fixed
generic error string; a failed update surfaces the server-provided
message when present and a generic fallback otherwise; in every case
exactly one request was issued (no retry) and the posts list is left
unchanged (the in-flight operation is aborted with no partial
effect). -/
theorem claim7_failure_surface_amended (hasToken : Bool)
    (s : MyPosts.State) (ep : MyPosts.Post) (m : Option String)
    (postId : Nat) (hep : s.editingPost = some ep) :
    ((MyPosts.fetchPosts hasToken MyPosts.FetchOutcome.failure s).1.posts
        = s.posts
      ∧ (MyPosts.fetchPosts hasToken
          MyPosts.FetchOutcome.failure s).1.error
          = "Failed to load posts. Please try again later."
      ∧ (MyPosts.fetchPosts hasToken MyPosts.FetchOutcome.failure s).2
          = [MyPosts.Effect.getUserPosts hasToken])
    ∧ ((MyPosts.handleEditSubmit hasToken (MyPosts.EditOutcome.err m)
          s).1.posts = s.posts
      ∧ (MyPosts.handleEditSubmit hasToken (MyPosts.EditOutcome.err m)
          s).1.error = m.getD "Failed to update post"
      ∧ (MyPosts.handleEditSubmit hasToken (MyPosts.EditOutcome.err m)
          s).2
          = [MyPosts.Effect.putPost hasToken ep.id s.editForm.title
              s.editForm.content])
    ∧ ((MyPosts.handleDelete hasToken true postId
          MyPosts.DeleteOutcome.failure s).1.posts = s.posts
      ∧ (MyPosts.handleDelete hasToken true postId
          MyPosts.DeleteOutcome.failure s).1.error
          = "Failed to delete post. Please try again."
      ∧ (MyPosts.handleDelete hasToken true postId
          MyPosts.DeleteOutcome.failure s).2
          = [MyPosts.Effect.confirmPrompt,
             MyPosts.Effect.deletePost hasToken postId]) := by
  refine ⟨⟨rfl, rfl, rfl⟩, ⟨?_, ?_, ?_⟩, ⟨?_, ?_, ?_⟩⟩
  · simp [MyPosts.handleEditSubmit, hep]
  · simp [MyPosts.handleEditSubmit, hep]
  · simp [MyPosts.handleEditSubmit, hep]
  · simp [MyPosts.handleDelete]
  · simp [MyPosts.handleDelete]
  · simp [MyPosts.handleDelete]

/-- Witness for the amended C7: concrete failed fetch, update and delete
in the sample state each abort with one request, an unchanged posts list
and the described error string. -/
theorem claim7_failure_surface_amended_witness :
    ((MyPosts.fetchPosts true MyPosts.FetchOutcome.failure
        myStateEditing).1.posts = myStateEditing.posts
      ∧ (MyPosts.fetchPosts true MyPosts.FetchOutcome.failure
          myStateEditing).1.error
          = "Failed to load posts. Please try again later."
      ∧ (MyPosts.fetchPosts true MyPosts.FetchOutcome.failure
          myStateEditing).2 = [MyPosts.Effect.getUserPosts true])
    ∧ ((MyPosts.handleEditSubmit true
          (MyPosts.EditOutcome.err (some "Unauthorized"))
          myStateEditing).1.posts = myStateEditing.posts
      ∧ (MyPosts.handleEditSubmit true
          (MyPosts.EditOutcome.err (some "Unauthorized"))
          myStateEditing).1.error
          = (some "Unauthorized").getD "Failed to update post"
      ∧ (MyPosts.handleEditSubmit true
          (MyPosts.EditOutcome.err (some "Unauthorized"))
          myStateEditing).2
          = [MyPosts.Effect.putPost true 5
              myStateEditing.editForm.title
              myStateEditing.editForm.content])
    ∧ ((MyPosts.handleDelete true true 5
          MyPosts.DeleteOutcome.failure myStateEditing).1.posts
          = myStateEditing.posts
      ∧ (MyPosts.handleDelete true true 5
          MyPosts.DeleteOutcome.failure myStateEditing).1.error
          = "Failed to delete post. Please try again."
      ∧ (MyPosts.handleDelete true true 5
          MyPosts.DeleteOutcome.failure myStateEditing).2
          = [MyPosts.Effect.confirmPrompt,
             MyPosts.Effect.deletePost true 5]) :=
  claim7_failure_surface_amended true myStateEditing mp5
    (some "Unauthorized") 5 rfl

/-- Claim C8: every failing create, update, delete or like request is
terminal for that action alone and leaves the data state exactly as it
was: the form data, posts list, editing state and in-flight set are
unchanged, and exactly one request was issued (no retry). -/
theorem claim8_failure_atomic (m m2 m3 : Option String) (hasToken : Bool)
    (cs : CreatePost.State) (ms : MyPosts.State) (ep : MyPosts.Post)
    (postId pid2 : Nat) (hs : Home.State)
    (hep : ms.editingPost = some ep) (hfl : pid2 ∉ hs.likingPosts) :
    ((CreatePost.handleSubmit true true (CreatePost.Outcome.err m)
        cs).1.formData = cs.formData
      ∧ (CreatePost.handleSubmit true true (CreatePost.Outcome.err m)
          cs).2
          = [CreatePost.Effect.createPost cs.formData.title
              cs.formData.content])
    ∧ ((MyPosts.handleEditSubmit hasToken (MyPosts.EditOutcome.err m2)
          ms).1.posts = ms.posts
      ∧ (MyPosts.handleEditSubmit hasToken (MyPosts.EditOutcome.err m2)
          ms).1.editingPost = ms.editingPost
      ∧ (MyPosts.handleEditSubmit hasToken (MyPosts.EditOutcome.err m2)
          ms).1.editForm = ms.editForm
      ∧ (MyPosts.handleEditSubmit hasToken (MyPosts.EditOutcome.err m2)
          ms).2.countP MyPosts.Effect.isRequest = 1)
    ∧ ((MyPosts.handleDelete hasToken true postId
          MyPosts.DeleteOutcome.failure ms).1.posts = ms.posts
      ∧ (MyPosts.handleDelete hasToken true postId
          MyPosts.DeleteOutcome.failure ms).1.editingPost
          = ms.editingPost
      ∧ (MyPosts.handleDelete hasToken true postId
          MyPosts.DeleteOutcome.failure ms).2.countP
          MyPosts.Effect.isRequest = 1)
    ∧ ((Home.handleLike true true pid2 (Home.LikeOutcome.failure m3)
          hs).1 = hs
      ∧ (Home.handleLike true true pid2 (Home.LikeOutcome.failure m3)
          hs).2.countP Home.Effect.isRequest = 1) := by
  refine ⟨⟨?_, ?_⟩, ⟨?_, ?_, ?_, ?_⟩, ⟨?_, ?_, ?_⟩, ⟨?_, ?_⟩⟩
  · simp [CreatePost.handleSubmit]
  · simp [CreatePost.handleSubmit]
  · simp [MyPosts.handleEditSubmit, hep]
  · simp [MyPosts.handleEditSubmit, hep]
  · simp [MyPosts.handleEditSubmit, hep]
  · simp [MyPosts.handleEditSubmit, hep, List.countP_cons,
      List.countP_nil, MyPosts.Effect.isRequest]
  · simp [MyPosts.handleDelete]
  · simp [MyPosts.handleDelete]
  · simp [MyPosts.handleDelete, List.countP_cons, List.countP_nil,
      MyPosts.Effect.isRequest]
  · simp [Home.handleLike, hfl, Finset.erase_insert hfl]
  · simp [Home.handleLike, hfl, List.countP_cons, List.countP_nil,
      Home.Effect.isRequest]

/-- Witness for C8: concrete failing create, update, delete and like
requests in the sample states leave all data state untouched and each
issue exactly one request. -/
theorem claim8_failure_atomic_witness :
    ((CreatePost.handleSubmit true true (CreatePost.Outcome.err none)
        { formData := { title := "T", content := "C" }, error := none,
          loading := true }).1.formData
        = ({ title := "T", content := "C" } : CreatePost.FormData)
      ∧ (CreatePost.handleSubmit true true (CreatePost.Outcome.err none)
          { formData := { title := "T", content := "C" }, error := none,
            loading := true }).2
          = [CreatePost.Effect.createPost "T" "C"])
    ∧ ((MyPosts.handleEditSubmit true (MyPosts.EditOutcome.err none)
          myStateEditing).1.posts = myStateEditing.posts
      ∧ (MyPosts.handleEditSubmit true (MyPosts.EditOutcome.err none)
          myStateEditing).1.editingPost = myStateEditing.editingPost
      ∧ (MyPosts.handleEditSubmit true (MyPosts.EditOutcome.err none)
          myStateEditing).1.editForm = myStateEditing.editForm
      ∧ (MyPosts.handleEditSubmit true (MyPosts.EditOutcome.err none)
          myStateEditing).2.countP MyPosts.Effect.isRequest = 1)
    ∧ ((MyPosts.handleDelete true true 5 MyPosts.DeleteOutcome.failure
          myStateEditing).1.posts = myStateEditing.posts
      ∧ (MyPosts.handleDelete true true 5 MyPosts.DeleteOutcome.failure
          myStateEditing).1.editingPost = myStateEditing.editingPost
      ∧ (MyPosts.handleDelete true true 5 MyPosts.DeleteOutcome.failure
          myStateEditing).2.countP MyPosts.Effect.isRequest = 1)
    ∧ ((Home.handleLike true true 1 (Home.LikeOutcome.failure none)
          homeStateIdle).1 = homeStateIdle
      ∧ (Home.handleLike true true 1 (Home.LikeOutcome.failure none)
          homeStateIdle).2.countP Home.Effect.isRequest = 1) :=
  claim8_failure_atomic none none none true
    { formData := { title := "T", content := "C" }, error := none,
      loading := true }
    myStateEditing mp5 5 1 homeStateIdle rfl (by decide)

/-- Counterexample for C9 as stated: when the platform's native share is
present but its promise rejects, the failure is only logged to the
console — no alert is surfaced, contrary to "failures are surfaced as a
simple alert". -/
theorem claim9_share_counterexample :
    ((Home.handleShare 1 "native" p1 "http://localhost:3000" true true
        false none).1).countP Home.ShareEffect.isAlert = 0
    ∧ Home.ShareEffect.consoleLog
        ∈ (Home.handleShare 1 "native" p1 "http://localhost:3000" true
            true false none).1
    ∧ ((Home.handleShare 1 "native" p1 "http://localhost:3000" true true
        false none).1).countP Home.ShareEffect.isPrimary = 1 := by
  refine ⟨?_, ?_, ?_⟩ <;>
    simp [Home.handleShare, List.countP_cons, List.countP_nil,
      Home.ShareEffect.isAlert, Home.ShareEffect.isPrimary]

/-- Claim C9 (amended): the share helper deterministically maps its
inputs to exactly one delivery effect — a clipboard write, a new-window
navigation to a constructed Twitter/Facebook/LinkedIn URL, a mail-client
navigation, or the platform's native share when present — and never
issues a request to this system's own backend; a clipboard failure is
surfaced as a simple alert, while a native-share failure is only logged
to the console and surfaces no alert. -/
theorem claim9_share_amended (postId : Nat) (ty : String)
    (post : Home.Post) (origin : String) (na ck nk : Bool)
    (d : Option Nat) :
    ((Home.handleShare postId ty post origin na ck nk d).1).countP
        Home.ShareEffect.isBackend = 0
    ∧ (ty = "copy" ∨ ty = "twitter" ∨ ty = "facebook"
        ∨ ty = "linkedin" ∨ ty = "email" →
        ((Home.handleShare postId ty post origin na ck nk d).1).countP
          Home.ShareEffect.isPrimary = 1)
    ∧ (ty = "native" → na = true →
        ((Home.handleShare postId ty post origin na ck nk d).1).countP
          Home.ShareEffect.isPrimary = 1)
    ∧ (ty = "copy" → ck = false →
        Home.ShareEffect.alert "Failed to copy link"
          ∈ (Home.handleShare postId ty post origin na ck nk d).1)
    ∧ (ty = "native" → na = true → nk = false →
        Home.ShareEffect.consoleLog
            ∈ (Home.handleShare postId ty post origin na ck nk d).1
          ∧ ((Home.handleShare postId ty post origin na ck nk
              d).1).countP Home.ShareEffect.isAlert = 0) := by
  refine ⟨?_, ?_, ?_, ?_, ?_⟩
  · unfold Home.handleShare
    split_ifs <;>
      simp [List.countP_cons, List.countP_nil, Home.ShareEffect.isBackend]
  · rintro (h | h | h | h | h) <;> subst h <;> cases ck <;>
      simp [Home.handleShare, List.countP_cons, List.countP_nil,
        Home.ShareEffect.isPrimary]
  · intro h hna
    subst h
    subst hna
    cases nk <;>
      simp [Home.handleShare, List.countP_cons, List.countP_nil,
        Home.ShareEffect.isPrimary]
  · intro h hck
    subst h
    subst hck
    simp [Home.handleShare]
  · intro h hna hnk
    subst h
    subst hna
    subst hnk
    refine ⟨?_, ?_⟩ <;>
      simp [Home.handleShare, List.countP_cons, List.countP_nil,
        Home.ShareEffect.isAlert]

/-- Witness for the amended C9: each channel on the sample post yields
exactly one delivery effect and no backend request; the failing
clipboard write alerts, the failing native share only logs. -/
theorem claim9_share_amended_witness :
    ((Home.handleShare 1 "copy" p1 "http://localhost:3000" false false
        true none).1).countP Home.ShareEffect.isBackend = 0
    ∧ ((Home.handleShare 1 "copy" p1 "http://localhost:3000" false false
        true none).1).countP Home.ShareEffect.isPrimary = 1
    ∧ Home.ShareEffect.alert "Failed to copy link"
        ∈ (Home.handleShare 1 "copy" p1 "http://localhost:3000" false
            false true none).1 :=
  ⟨(claim9_share_amended 1 "copy" p1 "http://localhost:3000" false false
      true none).1,
   (claim9_share_amended 1 "copy" p1 "http://localhost:3000" false false
      true none).2.1 (Or.inl rfl),
   (claim9_share_amended 1 "copy" p1 "http://localhost:3000" false false
      true none).2.2.2.1 rfl rfl⟩
